import Mathlib

/-!
Verification of the teleop screenshotter pipeline (src/screenshotter.py).

The program is shallowly embedded as trace-producing functions: every
externally visible action (browser automation call, SMTP call, secret
lookup, log line, sleep) is an `Event`, and each Python function is
translated to a Lean function from its inputs plus an explicit model of
the external world (which steps succeed or fail) to the list of events it
performs together with its result.  Python exceptions are modelled with
`PyResult`: a fallible step either returns `ok` or `exn`, and the
translation of a try/except block turns `exn` of its body into the
handler events, exactly mirroring the source control flow.
-/

namespace Teleop

/-- One externally visible action of the program.  Browser automation
calls carry their selector / URL / timeout arguments as written in the
source; `playwrightStop` is the implicit teardown performed by the
scoped resource block around the browser phase, and its Boolean records
whether that teardown is what closed the browser (true exactly when the
browser was opened but the explicit close call was never reached). -/
inductive Event where
  | launchBrowser
  | newContext
  | newPage
  | goto (url : String)
  | click (selector : String)
  | waitForSelector (selector : String) (timeoutMs : Option Nat)
  | fillField (selector : String) (value : String)
  | waitForLoadState (state : String) (timeoutMs : Nat)
  | sleepSeconds (secs : Nat)
  | screenshot (path : String)
  | closeBrowser
  | playwrightStop (closedBrowser : Bool)
  | readFile (path : String)
  | smtpConnect (server : Option String) (port : String)
  | smtpStartTls
  | smtpLogin (user : Option String)
  | smtpSend
  | sendEmailCall (recipients : List String) (sender : Option String)
  | accessSecret (name : String)
  | logInfo (msg : String)
  | logError (msg : String)
  | sleepInterval (secs : Nat)
  deriving DecidableEq, Repr

/-- Result of a Python computation: normal return or a raised exception. -/
inductive PyResult (α : Type) where
  | ok (a : α)
  | exn (msg : String)
  deriving DecidableEq, Repr

/-- Event classifiers used by the model and the statements below. -/
def isCloseBrowser : Event → Bool
  | .closeBrowser => true
  | _ => false

def isLaunch : Event → Bool
  | .launchBrowser => true
  | _ => false

def isPwStop : Event → Bool
  | .playwrightStop _ => true
  | _ => false

def isPwStopClosing : Event → Bool
  | .playwrightStop b => b
  | _ => false

def isSendEmailCall : Event → Bool
  | .sendEmailCall _ _ => true
  | _ => false

def isSmtpEvent : Event → Bool
  | .smtpConnect _ _ => true
  | .smtpStartTls => true
  | .smtpLogin _ => true
  | .smtpSend => true
  | _ => false

def isScreenshot : Event → Bool
  | .screenshot _ => true
  | _ => false

def isSettleSleep : Event → Bool
  | .sleepSeconds _ => true
  | _ => false

def isAccessSecret : Event → Bool
  | .accessSecret _ => true
  | _ => false

def isCycleStart : Event → Bool
  | .logInfo m => m == "Starting new capture cycle..."
  | _ => false

def isSleepInterval : Event → Bool
  | .sleepInterval _ => true
  | _ => false

def isClick : Event → Bool
  | .click _ => true
  | _ => false

/-- The kinds of event that a send_email call can emit: the attachment
read, the SMTP exchange steps, and its log lines. -/
def isEmailPhaseEvent : Event → Bool
  | .readFile _ => true
  | .smtpConnect _ _ => true
  | .smtpStartTls => true
  | .smtpLogin _ => true
  | .smtpSend => true
  | .logInfo m => m == "Email sent"
  | .logError _ => true
  | _ => false

attribute [simp] isCloseBrowser isLaunch isPwStop isPwStopClosing isSendEmailCall
  isSmtpEvent isScreenshot isSettleSleep isAccessSecret isCycleStart isSleepInterval isClick

/-- Python truthiness of an optional string: None and the empty string
are falsy, every other string is truthy. -/
def truthyOpt : Option String → Bool
  | none => false
  | some s => !(s == "")

/-- Python truthiness of a string: only the empty string is falsy. -/
def truthyStr (s : String) : Bool := !(s == "")

/-- The whitespace characters removed by the Python str.strip method
(ASCII range). -/
def pyIsSpace (c : Char) : Bool :=
  c = ' ' || c = '\t' || c = '\n' || c = '\x0d' || c = '\x0b' || c = '\x0c'

/-- Python str.strip with no arguments: remove leading and trailing
whitespace. -/
def pyStrip (s : String) : String :=
  String.mk (((s.toList.dropWhile pyIsSpace).reverse.dropWhile pyIsSpace).reverse)

/-- State of the recipient configuration file on disk. -/
inductive RecipientFile where
  | absent
  | unreadable
  | lines (ls : List String)
  deriving DecidableEq, Repr

/-- Translation of load_recipient_emails (src/screenshotter.py lines
63 to 82).  Each non-blank line of the file, stripped, is one address;
if the file is missing or unreadable the EMAIL_RECIPIENT environment
variable is used when truthy, else the list is empty. -/
def load_recipient_emails (file : RecipientFile) (emailRecipient : Option String) : List String :=
  match file with
  | .lines ls => (ls.filter (fun l => truthyStr (pyStrip l))).map pyStrip
  | .absent =>
      if truthyOpt emailRecipient then [emailRecipient.getD ""] else []
  | .unreadable =>
      if truthyOpt emailRecipient then [emailRecipient.getD ""] else []

/-- Translation of handle_google_login (lines 84 to 97): the ordered
browser steps of the Google login flow. -/
def handle_google_login (email password : String) : List Event :=
  [ .click "button:has-text(\"Login with Google\")",
    .waitForSelector "input[type=\"email\"]" none,
    .fillField "input[type=\"email\"]" email,
    .click "button:has-text(\"Next\")",
    .waitForSelector "input[type=\"password\"]" (some 10000),
    .fillField "input[type=\"password\"]" password,
    .click "button:has-text(\"Next\")",
    .waitForLoadState "networkidle" 30000 ]

/-- Translation of capture_screenshot (lines 99 to 109): navigate to the
teleop URL, wait for the body element with a 10000 ms timeout, sleep a
fixed 3 seconds, then write the screenshot to the output path. -/
def capture_screenshot (teleopUrl outputPath : String) : List Event :=
  [ .goto teleopUrl,
    .waitForSelector "body" (some 10000),
    .sleepSeconds 3,
    .screenshot outputPath ]

/-- Default of the LOGIN_URL environment variable (line 16). -/
def loginUrl : String := "https://app.viam.com"

/-- The ordered browser-phase steps of one cycle, as performed inside
the scoped playwright block of process_capture_and_email (lines 145 to
152): launch, fresh context and page, navigate to the login URL, the
login flow, the capture flow, then the explicit browser close. -/
def browserPhaseSteps (googleEmail googlePassword teleopUrl screenshotPath : String) :
    List Event :=
  [Event.launchBrowser, Event.newContext, Event.newPage, Event.goto loginUrl]
    ++ handle_google_login googleEmail googlePassword
    ++ capture_screenshot teleopUrl screenshotPath
    ++ [Event.closeBrowser]

/-- Email configuration dictionary built by main: recipients plus the
sender and SMTP fields (which can be unset in environment mode). -/
structure EmailConfig where
  recipients : List String
  sender : Option String
  server : Option String
  port : String
  user : Option String
  password : Option String
  deriving DecidableEq, Repr

/-- External-world model for one send_email call: whether the artifact
read succeeds (and its bytes), and whether each step of the SMTP
exchange succeeds. -/
structure SmtpWorld where
  readArtifact : Option (List Nat)
  connectOk : Bool
  starttlsOk : Bool
  loginOk : Bool
  sendOk : Bool
  deriving DecidableEq, Repr

/-- One fallible external step: it emits its event and raises when the
world says it fails. -/
def pyStep (e : Event) (ok : Bool) : List Event × PyResult Unit :=
  ([e], if ok then .ok () else .exn "step failed")

/-- Sequencing of two fallible computations: the second runs only when
the first returned normally. -/
def pySeq (a b : List Event × PyResult Unit) : List Event × PyResult Unit :=
  match a with
  | (evs, .ok _) => (evs ++ b.1, b.2)
  | (evs, .exn m) => (evs, .exn m)

/-- The SMTP exchange of send_email (lines 129 to 132): connect,
STARTTLS, login, send, each fallible, stopping at the first failure. -/
def smtpExchange (cfg : EmailConfig) (w : SmtpWorld) : List Event × PyResult Unit :=
  pySeq (pyStep (.smtpConnect cfg.server cfg.port) w.connectOk)
    (pySeq (pyStep .smtpStartTls w.starttlsOk)
      (pySeq (pyStep (.smtpLogin cfg.user) w.loginOk)
        (pyStep .smtpSend w.sendOk)))

/-- Translation of send_email (lines 111 to 135).  Message construction
is pure.  The attachment read is wrapped in a try/except that logs and
returns; the SMTP exchange is wrapped in a try/except that logs.  Both
handlers return normally, so the function never raises to its caller. -/
def send_email (recipients : List String) (sender : Option String) (cfg : EmailConfig)
    (screenshotPath : String) (w : SmtpWorld) : List Event × PyResult Unit :=
  match w.readArtifact with
  | none =>
      ([.readFile screenshotPath,
        .logError "Failed to read screenshot for email attachment"], .ok ())
  | some _ =>
      match smtpExchange cfg w with
      | (evs, .exn _) =>
          (.readFile screenshotPath :: evs ++ [.logError "Error sending email"], .ok ())
      | (evs, .ok _) =>
          (.readFile screenshotPath :: evs ++ [.logInfo "Email sent"], .ok ())

/-- The browser steps actually performed given the failure model: all of
them when no step raises, only the first k when step number k raises. -/
def stepsPerformed (steps : List Event) : Option Nat → List Event
  | none => steps
  | some k => steps.take k

/-- Whether a session (browser) gets opened under the given failure
model: only a failure of the very first step (the launch) prevents it. -/
def sessionOpened : Option Nat → Bool
  | some 0 => false
  | _ => true

/-- Translation of process_capture_and_email (lines 137 to 157).  The
browser phase runs inside the scoped playwright block: on a step
failure the raised exception propagates, but the block teardown
(`playwrightStop`) still runs and closes the browser when the explicit
close was never reached.  Only after the block exits, and only when no
step raised, is the email phase run: send_email when the configuration
dictionary is present, otherwise a logged skip. -/
def process_capture_and_email (googleEmail googlePassword teleopUrl screenshotPath : String)
    (emailConfig : Option EmailConfig) (failAt : Option Nat) (w : SmtpWorld) :
    List Event × PyResult Unit :=
  let steps := browserPhaseSteps googleEmail googlePassword teleopUrl screenshotPath
  let performed := stepsPerformed steps failAt
  let opened := performed.any isLaunch
  let closed := performed.any isCloseBrowser
  let browserEvents := performed ++ [Event.playwrightStop (opened && !closed)]
  match failAt with
  | some _ => (browserEvents, .exn "cycle step failed")
  | none =>
      match emailConfig with
      | some cfg =>
          (browserEvents
            ++ Event.sendEmailCall cfg.recipients cfg.sender
              :: (send_email cfg.recipients cfg.sender cfg screenshotPath w).1, .ok ())
      | none =>
          (browserEvents
            ++ [Event.logInfo "Email not configured; skipping email notification."], .ok ())

/-- The environment-derived configuration of the program, one field per
environment variable read at module load (lines 16 to 51).  Secret-name
fields default to the literals in the source but can be overridden (and
even set to the empty string) by the environment, so they are plain
strings; direct value fields are optional strings, absent when the
variable is unset. -/
structure Env where
  useSecretsManager : Bool
  gcpProjectId : Option String
  googleEmailSecretName : String
  googlePasswordSecretName : String
  emailSenderSecretName : String
  emailSmtpServerSecretName : String
  emailSmtpServerPortSecretName : String
  emailSmtpUserSecretName : String
  emailSmtpPasswordSecretName : String
  googleEmail : Option String
  googlePassword : Option String
  emailSender : Option String
  emailSmtpServer : Option String
  emailSmtpServerPort : Option String
  emailSmtpUser : Option String
  emailSmtpPassword : Option String
  emailRecipient : Option String
  captureIntervalSeconds : Nat
  teleopUrl : String
  screenshotPath : String
  deriving DecidableEq, Repr

/-- The configuration with every environment variable unset: all the
defaults written in the source. -/
def defaultEnv : Env :=
  { useSecretsManager := true,
    gcpProjectId := none,
    googleEmailSecretName := "soleng-google-email",
    googlePasswordSecretName := "soleng-google-password",
    emailSenderSecretName := "soleng-sender-email",
    emailSmtpServerSecretName := "soleng-smtp-server",
    emailSmtpServerPortSecretName := "soleng-smtp-port",
    emailSmtpUserSecretName := "soleng-smtp-user",
    emailSmtpPasswordSecretName := "soleng-smtp-password",
    googleEmail := none,
    googlePassword := none,
    emailSender := none,
    emailSmtpServer := none,
    emailSmtpServerPort := none,
    emailSmtpUser := none,
    emailSmtpPassword := none,
    emailRecipient := none,
    captureIntervalSeconds := 1800,
    teleopUrl := "https://app.viam.com/teleop/your-teleop-id",
    screenshotPath := "screenshots/teleop_demo.png" }

/-- The secret backend: a value for each secret name, or none when the
lookup raises. -/
def SecretStore : Type := String → Option String

/-- Translation of one access_secret call (lines 53 to 61): looks up the
latest version of the named secret and strips the payload; a backend
error raises. -/
def fetchOne (store : SecretStore) (name : String) : List Event × PyResult String :=
  ([.accessSecret name],
    match store name with
    | some v => .ok (pyStrip v)
    | none => .exn "secret access failed")

/-- Sequencing of fallible computations with a value. -/
def pyBind (a : List Event × PyResult α) (f : α → List Event × PyResult β) :
    List Event × PyResult β :=
  match a with
  | (evs, .ok x) => (evs ++ (f x).1, (f x).2)
  | (evs, .exn m) => (evs, .exn m)

/-- The conditional port fetch of main (line 179): the port secret is
fetched only when its configured name is truthy, else the literal 587
is used without any lookup. -/
def fetchPort (cfg : Env) (store : SecretStore) : List Event × PyResult String :=
  if truthyStr cfg.emailSmtpServerPortSecretName then
    fetchOne store cfg.emailSmtpServerPortSecretName
  else ([], .ok "587")

/-- The secret-resolution phase of main in secret-backend mode (lines
171 to 181): Google email, Google password, sender, SMTP server,
conditionally SMTP port, SMTP user and SMTP password, fetched in that
order, stopping at the first failure. -/
def secretsPhase (cfg : Env) (store : SecretStore) :
    List Event × PyResult (String × String × String × String × String × String × String) :=
  pyBind (fetchOne store cfg.googleEmailSecretName) fun ge =>
  pyBind (fetchOne store cfg.googlePasswordSecretName) fun gp =>
  pyBind (fetchOne store cfg.emailSenderSecretName) fun sender =>
  pyBind (fetchOne store cfg.emailSmtpServerSecretName) fun server =>
  pyBind (fetchPort cfg store) fun port =>
  pyBind (fetchOne store cfg.emailSmtpUserSecretName) fun user =>
  pyBind (fetchOne store cfg.emailSmtpPasswordSecretName) fun pw =>
  ([], PyResult.ok (ge, gp, sender, server, port, user, pw))

/-- The names the secret-resolution phase tries to fetch, in order. -/
def fetchNames (cfg : Env) : List String :=
  [cfg.googleEmailSecretName, cfg.googlePasswordSecretName,
   cfg.emailSenderSecretName, cfg.emailSmtpServerSecretName]
    ++ (if truthyStr cfg.emailSmtpServerPortSecretName then
          [cfg.emailSmtpServerPortSecretName] else [])
    ++ [cfg.emailSmtpUserSecretName, cfg.emailSmtpPasswordSecretName]

/-- Outcome of the startup part of main, before the capture loop. -/
inductive Startup where
  | abortNoProjectId
  | abortSecretError
  | abortMissingCreds
  | proceed (googleEmail googlePassword : String) (emailConfig : Option EmailConfig)
  deriving DecidableEq, Repr

/-- Translation of the startup part of main (lines 159 to 215): load the
recipient list; in secret-backend mode require a truthy project id and
fetch all secrets (any failure logs and returns); in environment mode
take the values from the environment; in both modes the email
configuration dictionary is built only when the recipient list is
non-empty; finally require truthy Google credentials. -/
def startup (cfg : Env) (store : SecretStore) (file : RecipientFile) :
    List Event × Startup :=
  let recipients := load_recipient_emails file cfg.emailRecipient
  if cfg.useSecretsManager then
    if !(truthyOpt cfg.gcpProjectId) then
      ([.logError "GCP_PROJECT_ID is not set. Cannot access secrets."], .abortNoProjectId)
    else
      match secretsPhase cfg store with
      | (evs, .exn _) =>
          (evs ++ [.logError "Error retrieving secrets"], .abortSecretError)
      | (evs, .ok (ge, gp, sender, server, port, user, pw)) =>
          let emailConfig : Option EmailConfig :=
            if recipients.isEmpty then none
            else some { recipients := recipients, sender := some sender,
                        server := some server, port := port,
                        user := some user, password := some pw }
          if !(truthyStr ge) || !(truthyStr gp) then
            (evs ++ [.logError "Google credentials are missing. Exiting."], .abortMissingCreds)
          else (evs, .proceed ge gp emailConfig)
  else
    let emailConfig : Option EmailConfig :=
      if recipients.isEmpty then none
      else some { recipients := recipients, sender := cfg.emailSender,
                  server := cfg.emailSmtpServer,
                  port := if truthyOpt cfg.emailSmtpServerPort then
                            cfg.emailSmtpServerPort.getD "" else "587",
                  user := cfg.emailSmtpUser, password := cfg.emailSmtpPassword }
    if !(truthyOpt cfg.googleEmail) || !(truthyOpt cfg.googlePassword) then
      ([.logError "Google credentials are missing. Exiting."], .abortMissingCreds)
    else ([], .proceed (cfg.googleEmail.getD "") (cfg.googlePassword.getD "") emailConfig)

/-- One iteration of the capture loop of main (lines 217 to 224): log
the cycle start, run the cycle inside a try/except that logs any raised
exception, then sleep the fixed configured interval.  The except clause
catches every cycle exception, so the iteration always runs to the
sleep and the loop always continues. -/
def scheduler_iteration (googleEmail googlePassword teleopUrl screenshotPath : String)
    (emailConfig : Option EmailConfig) (interval : Nat)
    (failAt : Option Nat) (w : SmtpWorld) : List Event :=
  let r := process_capture_and_email googleEmail googlePassword teleopUrl screenshotPath
    emailConfig failAt w
  Event.logInfo "Starting new capture cycle..."
    :: r.1
    ++ (match r.2 with
        | .ok _ => [Event.logInfo "Cycle completed."]
        | .exn _ => [Event.logError "Error during capture cycle"])
    ++ [Event.sleepInterval interval]

/-- The first n iterations of the capture loop, with a per-cycle failure
model: cycle k fails at step (fails k) against SMTP world (ws k). -/
def scheduler_run (googleEmail googlePassword teleopUrl screenshotPath : String)
    (emailConfig : Option EmailConfig) (interval : Nat)
    (fails : Nat → Option Nat) (ws : Nat → SmtpWorld) : Nat → List Event
  | 0 => []
  | n + 1 =>
      scheduler_run googleEmail googlePassword teleopUrl screenshotPath emailConfig interval
        fails ws n
        ++ scheduler_iteration googleEmail googlePassword teleopUrl screenshotPath emailConfig
            interval (fails n) (ws n)

/-- The events of a whole program run observed up to n loop iterations:
the startup events, then, only when startup proceeded, the loop. -/
def mainTrace (cfg : Env) (store : SecretStore) (file : RecipientFile)
    (fails : Nat → Option Nat) (ws : Nat → SmtpWorld) (n : Nat) : List Event :=
  match startup cfg store file with
  | (evs, .proceed ge gp ec) =>
      evs ++ scheduler_run ge gp cfg.teleopUrl cfg.screenshotPath ec
        cfg.captureIntervalSeconds fails ws n
  | (evs, _) => evs

/-- How the process came to terminate: main returned normally (which is
what every startup abort does: it logs and returns), or the loop was
interrupted from outside and the KeyboardInterrupt reached the guard in
the main block. -/
inductive ExitCause where
  | mainReturned
  | keyboardInterrupt
  deriving DecidableEq, Repr

/-- The process exit code for each termination cause, per the main block
(lines 226 to 230): the source never calls sys.exit, so a normal return
of main ends the process with status 0, and a KeyboardInterrupt is
caught, logged, and also ends the process with status 0. -/
def process_exit_code : ExitCause → Nat
  | .mainReturned => 0
  | .keyboardInterrupt => 0

/-- A flat model of the files written by the program: an association
list from path to byte content. -/
abbrev Fs : Type := List (String × List Nat)

/-- Write a file: overwrite the entry at the path when present, else
append a new entry. -/
def writeFs (fs : Fs) (p : String) (b : List Nat) : Fs :=
  if fs.any (fun e => e.1 == p) then
    fs.map (fun e => if e.1 == p then (p, b) else e)
  else fs ++ [(p, b)]

/-- Effect of one event on the file system: only the screenshot call
writes a file; with a deterministic automation surface it always writes
the same bytes. -/
def applyEvent (shot : List Nat) (fs : Fs) : Event → Fs
  | .screenshot path => writeFs fs path shot
  | _ => fs

/-- Effect of a whole trace on the file system. -/
def applyTrace (shot : List Nat) (fs : Fs) (tr : List Event) : Fs :=
  tr.foldl (applyEvent shot) fs

/-- The paths written by a trace, in order, with multiplicity. -/
def writtenPaths (tr : List Event) : List String :=
  tr.filterMap (fun e => match e with | .screenshot p => some p | _ => none)

/-- Number of times the browser gets closed in a trace: explicit close
calls plus scoped teardowns that found the browser still open. -/
def browserTeardownCount (tr : List Event) : Nat :=
  tr.countP isCloseBrowser + tr.countP isPwStopClosing

/-- The browser-phase steps that precede the explicit browser close. -/
def preCloseSteps (ge gp url path : String) : List Event :=
  [Event.launchBrowser, Event.newContext, Event.newPage, Event.goto loginUrl,
   Event.click "button:has-text(\"Login with Google\")",
   Event.waitForSelector "input[type=\"email\"]" none,
   Event.fillField "input[type=\"email\"]" ge,
   Event.click "button:has-text(\"Next\")",
   Event.waitForSelector "input[type=\"password\"]" (some 10000),
   Event.fillField "input[type=\"password\"]" gp,
   Event.click "button:has-text(\"Next\")",
   Event.waitForLoadState "networkidle" 30000,
   Event.goto url, Event.waitForSelector "body" (some 10000),
   Event.sleepSeconds 3, Event.screenshot path]

/-- A fully populated email configuration for concrete runs. -/
def demoEmailConfig : EmailConfig :=
  { recipients := ["a@x.com"], sender := some "s@x.com", server := some "smtp.x.com",
    port := "587", user := some "u", password := some "p" }

/-- An SMTP world in which every step succeeds. -/
def allOkSmtp : SmtpWorld :=
  { readArtifact := some [1], connectOk := true, starttlsOk := true,
    loginOk := true, sendOk := true }

/-- Environment-mode configuration with Google credentials set but with
the sender address and the SMTP host unset. -/
def envModeNoSender : Env :=
  { defaultEnv with
    useSecretsManager := false,
    googleEmail := some "g@x.com", googlePassword := some "pw" }

/-- An SMTP world whose exchange fails at the first step, as happens
when no SMTP host is configured. -/
def noServerSmtp : SmtpWorld :=
  { readArtifact := some [1], connectOk := false, starttlsOk := false,
    loginOk := false, sendOk := false }

/-- Content of a path in the file-system model. -/
def lookupFs (fs : Fs) (p : String) : Option (List Nat) :=
  (fs.find? (fun e => e.1 == p)).map (fun e => e.2)

/-! Helper lemmas about traces. -/

lemma take_any_head (p : Event → Bool) (a : Event) (l : List Event) (k : Nat)
    (ha : p a = true) : ((a :: l).take k).any p = decide (0 < k) := by
  cases k with
  | zero => simp
  | succ k => simp [List.take_succ_cons, ha]

lemma take_any_last (p : Event → Bool) (c : Event) (l : List Event)
    (hl : ∀ e ∈ l, p e = false) (hc : p c = true) :
    ∀ k, ((l ++ [c]).take k).any p = decide (l.length < k) := by
  induction l with
  | nil =>
      intro k
      cases k with
      | zero => simp
      | succ k => simp [hc]
  | cons a l ih =>
      intro k
      cases k with
      | zero => simp
      | succ k =>
          have ha : p a = false := hl a (by simp)
          have ih' := ih (fun e he => hl e (by simp [he])) k
          simp [List.take_succ_cons, ha, ih', Nat.succ_lt_succ_iff]

lemma take_countP_last (p : Event → Bool) (c : Event) (l : List Event)
    (hl : ∀ e ∈ l, p e = false) (hc : p c = true) :
    ∀ k, ((l ++ [c]).take k).countP p = if l.length < k then 1 else 0 := by
  induction l with
  | nil =>
      intro k
      cases k with
      | zero => simp
      | succ k => simp [List.countP_cons, hc]
  | cons a l ih =>
      intro k
      cases k with
      | zero => simp
      | succ k =>
          have ha : p a = false := hl a (by simp)
          have ih' := ih (fun e he => hl e (by simp [he])) k
          simp [List.take_succ_cons, List.countP_cons, ha, ih', Nat.succ_lt_succ_iff]

lemma countP_take_eq_zero (p : Event → Bool) (l : List Event) (k : Nat)
    (h : l.countP p = 0) : (l.take k).countP p = 0 := by
  have := (List.take_sublist k l).countP_le p
  omega

lemma pyBind_ok {α β : Type} {a : List Event × PyResult α} {f : α → List Event × PyResult β}
    {v : β} (h : (pyBind a f).2 = .ok v) : ∃ x, a.2 = .ok x ∧ (f x).2 = .ok v := by
  rcases a with ⟨evs, r⟩
  cases r with
  | ok x => exact ⟨x, rfl, by simpa [pyBind] using h⟩
  | exn m => simp [pyBind] at h

lemma mem_pyBind {α β : Type} {a : List Event × PyResult α} {f : α → List Event × PyResult β}
    {e : Event} (h : e ∈ (pyBind a f).1) : e ∈ a.1 ∨ ∃ x, e ∈ (f x).1 := by
  rcases a with ⟨evs, r⟩
  cases r with
  | ok x =>
      rcases List.mem_append.mp (by simpa [pyBind] using h) with h' | h'
      · exact Or.inl h'
      · exact Or.inr ⟨x, h'⟩
  | exn m => exact Or.inl (by simpa [pyBind] using h)

lemma mem_pySeq {a b : List Event × PyResult Unit} {e : Event}
    (h : e ∈ (pySeq a b).1) : e ∈ a.1 ∨ e ∈ b.1 := by
  rcases a with ⟨evs, r⟩
  cases r with
  | ok x =>
      rcases List.mem_append.mp (by simpa [pySeq] using h) with h' | h'
      · exact Or.inl h'
      · exact Or.inr h'
  | exn m => exact Or.inl (by simpa [pySeq] using h)

lemma smtpExchange_events_shape (cfg : EmailConfig) (w : SmtpWorld) :
    ∀ e ∈ (smtpExchange cfg w).1, isEmailPhaseEvent e = true := by
  intro e he
  unfold smtpExchange at he
  rcases mem_pySeq he with h | h
  · simp [pyStep] at h; subst h; rfl
  · rcases mem_pySeq h with h | h
    · simp [pyStep] at h; subst h; rfl
    · rcases mem_pySeq h with h | h
      · simp [pyStep] at h; subst h; rfl
      · simp [pyStep] at h; subst h; rfl

lemma send_email_events_shape (r : List String) (s : Option String) (cfg : EmailConfig)
    (p : String) (w : SmtpWorld) :
    ∀ e ∈ (send_email r s cfg p w).1, isEmailPhaseEvent e = true := by
  intro e he
  unfold send_email at he
  cases hra : w.readArtifact with
  | none =>
      rw [hra] at he
      simp at he
      rcases he with h | h <;> subst h <;> rfl
  | some bytes =>
      rw [hra] at he
      rcases hse : smtpExchange cfg w with ⟨evs, rr⟩
      rw [hse] at he
      have hevs : ∀ e ∈ evs, isEmailPhaseEvent e = true := by
        intro e' he'
        exact smtpExchange_events_shape cfg w e' (by rw [hse]; exact he')
      cases rr with
      | ok x =>
          simp at he
          rcases he with h | h | h
          · subst h; rfl
          · exact hevs e h
          · subst h; rfl
      | exn m =>
          simp at he
          rcases he with h | h | h
          · subst h; rfl
          · exact hevs e h
          · subst h; rfl

lemma emailPhaseEvent_classifiers {e : Event} (h : isEmailPhaseEvent e = true) :
    isCloseBrowser e = false ∧ isPwStopClosing e = false ∧ isPwStop e = false ∧
    isScreenshot e = false ∧ isSettleSleep e = false ∧ isCycleStart e = false ∧
    isSleepInterval e = false ∧ isSendEmailCall e = false ∧ isLaunch e = false ∧
    isClick e = false := by
  cases e <;>
    simp_all [isEmailPhaseEvent, isCloseBrowser, isPwStopClosing, isPwStop, isScreenshot,
      isSettleSleep, isCycleStart, isSleepInterval, isSendEmailCall, isLaunch, isClick]

lemma send_email_countP_zero (r : List String) (s : Option String) (cfg : EmailConfig)
    (p : String) (w : SmtpWorld) (q : Event → Bool)
    (hq : ∀ e, isEmailPhaseEvent e = true → q e = false) :
    (send_email r s cfg p w).1.countP q = 0 :=
  List.countP_eq_zero.mpr fun e he => by
    simp [hq e (send_email_events_shape r s cfg p w e he)]

lemma email_no_close {e : Event} (h : isEmailPhaseEvent e = true) :
    isCloseBrowser e = false := (emailPhaseEvent_classifiers h).1

lemma email_no_pwStopClosing {e : Event} (h : isEmailPhaseEvent e = true) :
    isPwStopClosing e = false := (emailPhaseEvent_classifiers h).2.1

lemma email_no_pwStop {e : Event} (h : isEmailPhaseEvent e = true) :
    isPwStop e = false := (emailPhaseEvent_classifiers h).2.2.1

lemma email_no_screenshot {e : Event} (h : isEmailPhaseEvent e = true) :
    isScreenshot e = false := (emailPhaseEvent_classifiers h).2.2.2.1

lemma email_no_settle {e : Event} (h : isEmailPhaseEvent e = true) :
    isSettleSleep e = false := (emailPhaseEvent_classifiers h).2.2.2.2.1

lemma email_no_cycleStart {e : Event} (h : isEmailPhaseEvent e = true) :
    isCycleStart e = false := (emailPhaseEvent_classifiers h).2.2.2.2.2.1

lemma email_no_sleepInterval {e : Event} (h : isEmailPhaseEvent e = true) :
    isSleepInterval e = false := (emailPhaseEvent_classifiers h).2.2.2.2.2.2.1

lemma email_no_sendCall {e : Event} (h : isEmailPhaseEvent e = true) :
    isSendEmailCall e = false := (emailPhaseEvent_classifiers h).2.2.2.2.2.2.2.1


lemma steps_decomp (ge gp url path : String) :
    browserPhaseSteps ge gp url path = preCloseSteps ge gp url path ++ [Event.closeBrowser] := by
  simp [browserPhaseSteps, handle_google_login, capture_screenshot, preCloseSteps]

lemma preClose_no_close (ge gp url path : String) :
    ∀ e ∈ preCloseSteps ge gp url path, isCloseBrowser e = false := by
  intro e he
  fin_cases he <;> rfl

lemma preClose_length (ge gp url path : String) :
    (preCloseSteps ge gp url path).length = 16 := by
  simp [preCloseSteps]

lemma steps_countP_pwStop (ge gp url path : String) :
    (browserPhaseSteps ge gp url path).countP isPwStop = 0 := by
  simp [browserPhaseSteps, handle_google_login, capture_screenshot, List.countP_cons,
    List.countP_append, isPwStop]

lemma steps_countP_pwStopClosing (ge gp url path : String) :
    (browserPhaseSteps ge gp url path).countP isPwStopClosing = 0 := by
  simp [browserPhaseSteps, handle_google_login, capture_screenshot, List.countP_cons,
    List.countP_append, isPwStopClosing]

lemma steps_countP_close (ge gp url path : String) :
    (browserPhaseSteps ge gp url path).countP isCloseBrowser = 1 := by
  simp [browserPhaseSteps, handle_google_login, capture_screenshot, List.countP_cons,
    List.countP_append, isCloseBrowser]

lemma steps_cons_form (ge gp url path : String) :
    browserPhaseSteps ge gp url path
      = Event.launchBrowser
          :: ((preCloseSteps ge gp url path).tail ++ [Event.closeBrowser]) := by
  simp [browserPhaseSteps, preCloseSteps, handle_google_login, capture_screenshot]

/-- C1: on every exit path of a cycle, whichever step fails, the scoped
playwright teardown runs exactly once, and whenever a browser session
was opened it is closed exactly once: by the explicit close call on the
success path, or by the scoped teardown when some step raised first.
Only when the launch itself fails does no session exist, and then the
close count is zero. -/
theorem C1_session_teardown_once (ge gp url path : String) (ec : Option EmailConfig)
    (failAt : Option Nat) (w : SmtpWorld) :
    (process_capture_and_email ge gp url path ec failAt w).1.countP isPwStop = 1
    ∧ browserTeardownCount (process_capture_and_email ge gp url path ec failAt w).1
        = if sessionOpened failAt then 1 else 0 := by
  rcases failAt with _ | k
  · have hopen : (browserPhaseSteps ge gp url path).any isLaunch = true := by
      simp [browserPhaseSteps, handle_google_login, capture_screenshot, isLaunch]
    have hclosed : (browserPhaseSteps ge gp url path).any isCloseBrowser = true := by
      simp [browserPhaseSteps, handle_google_login, capture_screenshot, isCloseBrowser]
    cases ec with
    | none =>
        simp [process_capture_and_email, stepsPerformed, hopen, hclosed, browserTeardownCount,
          List.countP_append, List.countP_cons, steps_countP_pwStop, steps_countP_close,
          steps_countP_pwStopClosing, sessionOpened, isPwStop, isCloseBrowser, isPwStopClosing]
    | some cfg =>
        have e1 := send_email_countP_zero cfg.recipients cfg.sender cfg path w
          isPwStop (fun e he => email_no_pwStop he)
        have e2 := send_email_countP_zero cfg.recipients cfg.sender cfg path w
          isCloseBrowser (fun e he => email_no_close he)
        have e3 := send_email_countP_zero cfg.recipients cfg.sender cfg path w
          isPwStopClosing (fun e he => email_no_pwStopClosing he)
        simp [process_capture_and_email, stepsPerformed, hopen, hclosed, browserTeardownCount,
          List.countP_append, List.countP_cons, steps_countP_pwStop, steps_countP_close,
          steps_countP_pwStopClosing, e1, e2, e3, sessionOpened, isPwStop, isCloseBrowser,
          isPwStopClosing]
  · have htake_pw : ((browserPhaseSteps ge gp url path).take k).countP isPwStop
        = 0 := countP_take_eq_zero _ _ _ (steps_countP_pwStop ge gp url path)
    have htake_pc : ((browserPhaseSteps ge gp url path).take k).countP
        isPwStopClosing = 0 :=
      countP_take_eq_zero _ _ _ (steps_countP_pwStopClosing ge gp url path)
    have htake_cl : ((browserPhaseSteps ge gp url path).take k).countP
        isCloseBrowser = if 16 < k then 1 else 0 := by
      rw [steps_decomp]
      have h := take_countP_last isCloseBrowser Event.closeBrowser
        (preCloseSteps ge gp url path) (preClose_no_close ge gp url path) rfl k
      simpa [preClose_length] using h
    have hopen : ((browserPhaseSteps ge gp url path).take k).any isLaunch
        = decide (0 < k) := by
      rw [steps_cons_form]
      exact take_any_head _ _ _ k rfl
    have hclosed : ((browserPhaseSteps ge gp url path).take k).any isCloseBrowser
        = decide (16 < k) := by
      rw [steps_decomp]
      have h := take_any_last isCloseBrowser Event.closeBrowser
        (preCloseSteps ge gp url path) (preClose_no_close ge gp url path) rfl k
      simpa [preClose_length] using h
    constructor
    · simp [process_capture_and_email, stepsPerformed, List.countP_append, List.countP_cons,
        htake_pw, isPwStop]
    · simp only [process_capture_and_email, stepsPerformed, browserTeardownCount,
        List.countP_append, List.countP_cons, htake_pc, htake_cl, hopen, hclosed]
      rcases k with _ | k
      · simp [sessionOpened, isPwStopClosing]
      · by_cases h16 : 16 < k + 1
        · simp [sessionOpened, isPwStopClosing, h16]
        · simp [sessionOpened, isPwStopClosing, h16]

/-- Witness for C1: a concrete cycle whose authentication step raises
still tears the session down exactly once. -/
theorem C1_witness :
    (process_capture_and_email "g" "p" "u" "s.png" (some demoEmailConfig) (some 5)
        allOkSmtp).1.countP isPwStop = 1
    ∧ browserTeardownCount (process_capture_and_email "g" "p" "u" "s.png"
        (some demoEmailConfig) (some 5) allOkSmtp).1
      = if sessionOpened (some 5) then 1 else 0 :=
  C1_session_teardown_once "g" "p" "u" "s.png" (some demoEmailConfig) (some 5) allOkSmtp

/-- C2 counterexample: at concrete inputs, the successful cycle closes
the browser at trace index 16 but performs the notification call only
at index 18, so the session is closed strictly before the notification
step — refuting the claim that the session is closed only after
notification. -/
theorem C2_counterexample :
    ((process_capture_and_email "g@x.com" "pw" "https://t" "shots/s.png"
        (some demoEmailConfig) none allOkSmtp).1.findIdx isCloseBrowser = 16)
    ∧ ((process_capture_and_email "g@x.com" "pw" "https://t" "shots/s.png"
        (some demoEmailConfig) none allOkSmtp).1.findIdx isSendEmailCall = 18)
    ∧ 18 < (process_capture_and_email "g@x.com" "pw" "https://t" "shots/s.png"
        (some demoEmailConfig) none allOkSmtp).1.length := by
  decide

/-- C2 (amended): within every successful cycle with email configured,
the steps occur in the order open session (index 0), authenticate
(first login interaction at index 4), capture (screenshot at index 15),
close session (index 16), and only then notify (send_email call at
index 18): the session is closed before, not after, the notification
step. -/
theorem C2_amended_step_order (ge gp url path : String) (cfg : EmailConfig) (w : SmtpWorld) :
    ((process_capture_and_email ge gp url path (some cfg) none w).1.findIdx isLaunch = 0)
    ∧ ((process_capture_and_email ge gp url path (some cfg) none w).1.findIdx isClick = 4)
    ∧ ((process_capture_and_email ge gp url path (some cfg) none w).1.findIdx isScreenshot = 15)
    ∧ ((process_capture_and_email ge gp url path (some cfg) none w).1.findIdx isCloseBrowser = 16)
    ∧ ((process_capture_and_email ge gp url path (some cfg) none w).1.findIdx isSendEmailCall = 18)
    ∧ 18 < (process_capture_and_email ge gp url path (some cfg) none w).1.length := by
  have hopen : (browserPhaseSteps ge gp url path).any isLaunch = true := by
    simp [browserPhaseSteps, handle_google_login, capture_screenshot]
  have hclosed : (browserPhaseSteps ge gp url path).any isCloseBrowser = true := by
    simp [browserPhaseSteps, handle_google_login, capture_screenshot]
  refine ⟨?_, ?_, ?_, ?_, ?_, ?_⟩ <;>
    simp [process_capture_and_email, stepsPerformed, hopen, hclosed, browserPhaseSteps,
      handle_google_login, capture_screenshot, List.findIdx_cons]

/-- Witness for C2 (amended) at a concrete successful cycle. -/
theorem C2_amended_witness :
    ((process_capture_and_email "g" "p" "u" "s.png" (some demoEmailConfig) none
        allOkSmtp).1.findIdx isLaunch = 0)
    ∧ ((process_capture_and_email "g" "p" "u" "s.png" (some demoEmailConfig) none
        allOkSmtp).1.findIdx isClick = 4)
    ∧ ((process_capture_and_email "g" "p" "u" "s.png" (some demoEmailConfig) none
        allOkSmtp).1.findIdx isScreenshot = 15)
    ∧ ((process_capture_and_email "g" "p" "u" "s.png" (some demoEmailConfig) none
        allOkSmtp).1.findIdx isCloseBrowser = 16)
    ∧ ((process_capture_and_email "g" "p" "u" "s.png" (some demoEmailConfig) none
        allOkSmtp).1.findIdx isSendEmailCall = 18)
    ∧ 18 < (process_capture_and_email "g" "p" "u" "s.png" (some demoEmailConfig) none
        allOkSmtp).1.length :=
  C2_amended_step_order "g" "p" "u" "s.png" demoEmailConfig allOkSmtp

lemma steps_countP_sendCall (ge gp url path : String) :
    (browserPhaseSteps ge gp url path).countP isSendEmailCall = 0 := by
  simp [browserPhaseSteps, handle_google_login, capture_screenshot, List.countP_cons,
    List.countP_append]


/-- C3 counterexample: with one recipient but the sender and the SMTP
host both unset, startup still hands the cycle a present email
configuration, and the cycle performs the send_email call and an SMTP
connection attempt — refuting the claim that an unset sender or unset
SMTP host independently suffices to skip notification. -/
theorem C3_counterexample :
    ((startup envModeNoSender (fun _ => none) (.lines ["a@x.com"])).2
      = Startup.proceed "g@x.com" "pw"
          (some { recipients := ["a@x.com"], sender := none, server := none,
                  port := "587", user := none, password := none }))
    ∧ ((process_capture_and_email "g@x.com" "pw" defaultEnv.teleopUrl defaultEnv.screenshotPath
          (some { recipients := ["a@x.com"], sender := none, server := none,
                  port := "587", user := none, password := none })
          none noServerSmtp).1.countP isSendEmailCall = 1)
    ∧ 1 ≤ (process_capture_and_email "g@x.com" "pw" defaultEnv.teleopUrl
          defaultEnv.screenshotPath
          (some { recipients := ["a@x.com"], sender := none, server := none,
                  port := "587", user := none, password := none })
          none noServerSmtp).1.countP isSmtpEvent := by
  decide

/-- C3 (amended): notification is skipped exactly when the resolved
recipient list is empty.  In both resolution modes the email
configuration handed to the cycle is absent iff the recipient list is
empty — an unset sender or SMTP host does not make it absent — and a
successful cycle performs the send_email call iff the configuration is
present. -/
theorem C3_amended_skip_iff_no_recipients (cfg : Env) (store : SecretStore)
    (file : RecipientFile) (ge gp : String) (ec : Option EmailConfig)
    (url path : String) (w : SmtpWorld)
    (h : (startup cfg store file).2 = .proceed ge gp ec) :
    (ec = none ↔ load_recipient_emails file cfg.emailRecipient = [])
    ∧ (process_capture_and_email ge gp url path ec none w).1.countP isSendEmailCall
        = (if ec = none then 0 else 1) := by
  constructor
  · unfold startup at h
    cases hu : cfg.useSecretsManager <;> rw [hu] at h
    · simp only [Bool.false_eq_true, if_false] at h
      split at h
      · simp at h
      · simp only [Startup.proceed.injEq] at h
        obtain ⟨-, -, hec⟩ := h
        by_cases hre : (load_recipient_emails file cfg.emailRecipient).isEmpty
        · simp [← hec, hre, List.isEmpty_iff.mp hre]
        · have hne : load_recipient_emails file cfg.emailRecipient ≠ [] := by
            simpa [List.isEmpty_iff] using hre
          simp [← hec, hre, hne]
    · simp only [if_true] at h
      split at h
      · simp at h
      · rcases hsp : secretsPhase cfg store with ⟨evs, r⟩
        rw [hsp] at h
        cases r with
        | exn m => simp at h
        | ok v =>
            obtain ⟨v1, v2, v3, v4, v5, v6, v7⟩ := v
            simp only [] at h
            split at h
            · simp at h
            · simp only [Startup.proceed.injEq] at h
              obtain ⟨-, -, hec⟩ := h
              by_cases hre : (load_recipient_emails file cfg.emailRecipient).isEmpty
              · simp [← hec, hre, List.isEmpty_iff.mp hre]
              · have hne : load_recipient_emails file cfg.emailRecipient ≠ [] := by
                  simpa [List.isEmpty_iff] using hre
                simp [← hec, hre, hne]
  · have hopen : (browserPhaseSteps ge gp url path).any isLaunch = true := by
      simp [browserPhaseSteps, handle_google_login, capture_screenshot]
    have hclosed : (browserPhaseSteps ge gp url path).any isCloseBrowser = true := by
      simp [browserPhaseSteps, handle_google_login, capture_screenshot]
    cases ec with
    | none =>
        simp [process_capture_and_email, stepsPerformed, hopen, hclosed,
          List.countP_append, List.countP_cons, steps_countP_sendCall]
    | some c =>
        have e1 := send_email_countP_zero c.recipients c.sender c path w
          isSendEmailCall (fun e he => email_no_sendCall he)
        simp [process_capture_and_email, stepsPerformed, hopen, hclosed,
          List.countP_append, List.countP_cons, steps_countP_sendCall, e1]

/-- Witness for C3 (amended): a concrete environment-mode startup with
one recipient proceeds with a present email configuration, and the
concrete cycle performs exactly one send_email call. -/
theorem C3_amended_witness :
    (((some { recipients := ["a@x.com"], sender := none, server := none, port := "587",
              user := none, password := none } : Option EmailConfig) = none)
      ↔ load_recipient_emails (.lines ["a@x.com"]) envModeNoSender.emailRecipient = [])
    ∧ (process_capture_and_email "g@x.com" "pw" "u" "s.png"
        (some { recipients := ["a@x.com"], sender := none, server := none, port := "587",
                user := none, password := none }) none allOkSmtp).1.countP isSendEmailCall
      = (if (some { recipients := ["a@x.com"], sender := none, server := none, port := "587",
                    user := none, password := none } : Option EmailConfig) = none
          then 0 else 1) :=
  C3_amended_skip_iff_no_recipients envModeNoSender (fun _ => none) (.lines ["a@x.com"])
    "g@x.com" "pw"
    (some { recipients := ["a@x.com"], sender := none, server := none, port := "587",
            user := none, password := none }) "u" "s.png" allOkSmtp (by decide)

lemma steps_countP_cycleStart (ge gp url path : String) :
    (browserPhaseSteps ge gp url path).countP isCycleStart = 0 := by
  simp [browserPhaseSteps, handle_google_login, capture_screenshot, List.countP_cons,
    List.countP_append]

lemma steps_countP_sleepInterval (ge gp url path : String) :
    (browserPhaseSteps ge gp url path).countP isSleepInterval = 0 := by
  simp [browserPhaseSteps, handle_google_login, capture_screenshot, List.countP_cons,
    List.countP_append]

lemma skipLog_not_cycleStart :
    isCycleStart (Event.logInfo "Email not configured; skipping email notification.")
      = false := by decide

/-- Whatever the failure model and email configuration, the events of a
single cycle contain no loop-level cycle-start log and no inter-cycle
sleep. -/
lemma cycle_no_loop_events (ge gp url path : String) (ec : Option EmailConfig)
    (failAt : Option Nat) (w : SmtpWorld) :
    (process_capture_and_email ge gp url path ec failAt w).1.countP isCycleStart = 0
    ∧ (process_capture_and_email ge gp url path ec failAt w).1.countP isSleepInterval = 0 := by
  rcases failAt with _ | k
  · have hopen : (browserPhaseSteps ge gp url path).any isLaunch = true := by
      simp [browserPhaseSteps, handle_google_login, capture_screenshot]
    have hclosed : (browserPhaseSteps ge gp url path).any isCloseBrowser = true := by
      simp [browserPhaseSteps, handle_google_login, capture_screenshot]
    cases ec with
    | none =>
        simp [process_capture_and_email, stepsPerformed, hopen, hclosed,
          List.countP_append, List.countP_cons, steps_countP_cycleStart,
          steps_countP_sleepInterval, skipLog_not_cycleStart]
    | some c =>
        have e1 := send_email_countP_zero c.recipients c.sender c path w
          isCycleStart (fun e he => email_no_cycleStart he)
        have e2 := send_email_countP_zero c.recipients c.sender c path w
          isSleepInterval (fun e he => email_no_sleepInterval he)
        simp [process_capture_and_email, stepsPerformed, hopen, hclosed,
          List.countP_append, List.countP_cons, steps_countP_cycleStart,
          steps_countP_sleepInterval, e1, e2]
  · have h1 := countP_take_eq_zero isCycleStart _ k (steps_countP_cycleStart ge gp url path)
    have h2 := countP_take_eq_zero isSleepInterval _ k (steps_countP_sleepInterval ge gp url path)
    simp [process_capture_and_email, stepsPerformed, List.countP_append, List.countP_cons,
      h1, h2]

/-- Every loop iteration, whatever the cycle outcome, starts with the
cycle-start log and ends with the fixed-interval sleep, and its middle
contains no other cycle start and no other sleep. -/
lemma iteration_shape (ge gp url path : String) (ec : Option EmailConfig) (interval : Nat)
    (failAt : Option Nat) (w : SmtpWorld) :
    ∃ evs, scheduler_iteration ge gp url path ec interval failAt w
        = Event.logInfo "Starting new capture cycle..." :: evs ++ [Event.sleepInterval interval]
      ∧ evs.countP isCycleStart = 0 ∧ evs.countP isSleepInterval = 0 := by
  have h := cycle_no_loop_events ge gp url path ec failAt w
  rcases hr : process_capture_and_email ge gp url path ec failAt w with ⟨evs0, r⟩
  rw [hr] at h
  cases r with
  | ok a =>
      refine ⟨evs0 ++ [Event.logInfo "Cycle completed."], ?_, ?_, ?_⟩
      · simp [scheduler_iteration, hr]
      · have : isCycleStart (Event.logInfo "Cycle completed.") = false := by decide
        simp [List.countP_append, List.countP_cons, h.1, this]
      · simp [List.countP_append, List.countP_cons, h.2]
  | exn m =>
      refine ⟨evs0 ++ [Event.logError "Error during capture cycle"], ?_, ?_, ?_⟩
      · simp [scheduler_iteration, hr]
      · simp [List.countP_append, List.countP_cons, h.1]
      · simp [List.countP_append, List.countP_cons, h.2]

/-- C4: the loop isolates cycle failures.  However each cycle fails,
the trace of n iterations contains exactly n cycle starts and exactly n
inter-cycle sleeps, every sleep is the same fixed configured interval,
every iteration ends with its sleep, and the trace of n+1 iterations
always extends the trace of n iterations by one full further iteration:
a failure in cycle k never prevents cycle k+1, and the loop never
terminates because of a cycle failure. -/
theorem C4_loop_isolates_failures (ge gp url path : String) (ec : Option EmailConfig)
    (interval : Nat) (fails : Nat → Option Nat) (ws : Nat → SmtpWorld) (n : Nat) :
    (scheduler_run ge gp url path ec interval fails ws (n + 1)
      = scheduler_run ge gp url path ec interval fails ws n
        ++ scheduler_iteration ge gp url path ec interval (fails n) (ws n))
    ∧ (scheduler_run ge gp url path ec interval fails ws n).countP isCycleStart = n
    ∧ (scheduler_run ge gp url path ec interval fails ws n).countP isSleepInterval = n
    ∧ (∀ s, Event.sleepInterval s ∈ scheduler_run ge gp url path ec interval fails ws n
        → s = interval)
    ∧ (∀ failAt w, ∃ evs, scheduler_iteration ge gp url path ec interval failAt w
        = Event.logInfo "Starting new capture cycle..." :: evs ++ [Event.sleepInterval interval]) := by
  refine ⟨rfl, ?_, ?_, ?_, ?_⟩
  · induction n with
    | zero => simp [scheduler_run]
    | succ m ih =>
        obtain ⟨evs, he, h1, h2⟩ := iteration_shape ge gp url path ec interval (fails m) (ws m)
        rw [scheduler_run, he]
        simp [List.countP_append, List.countP_cons, ih, h1]
  · induction n with
    | zero => simp [scheduler_run]
    | succ m ih =>
        obtain ⟨evs, he, h1, h2⟩ := iteration_shape ge gp url path ec interval (fails m) (ws m)
        rw [scheduler_run, he]
        simp [List.countP_append, List.countP_cons, ih, h2]
  · induction n with
    | zero => intro s hs; simp [scheduler_run] at hs
    | succ m ih =>
        intro s hs
        obtain ⟨evs, he, h1, h2⟩ := iteration_shape ge gp url path ec interval (fails m) (ws m)
        rw [scheduler_run, he] at hs
        rcases List.mem_append.mp hs with hs | hs
        · exact ih s hs
        · rcases List.mem_cons.mp hs with hs | hs
          · exact absurd hs (by simp)
          · rcases List.mem_append.mp hs with hs | hs
            · exact absurd (List.countP_eq_zero.mp h2 _ hs) (by simp)
            · rcases List.mem_singleton.mp hs with h
              simpa using congrArg (fun e => match e with
                | Event.sleepInterval s => s
                | _ => 0) h
  · intro failAt w
    obtain ⟨evs, he, -, -⟩ := iteration_shape ge gp url path ec interval failAt w
    exact ⟨evs, he⟩

/-- Witness for C4: two concrete iterations in which every cycle fails
still produce two cycle starts and two fixed-interval sleeps. -/
theorem C4_witness :
    (scheduler_run "g" "p" "u" "s.png" none 1800 (fun _ => some 3)
        (fun _ => allOkSmtp) 2).countP isCycleStart = 2
    ∧ (scheduler_run "g" "p" "u" "s.png" none 1800 (fun _ => some 3)
        (fun _ => allOkSmtp) 2).countP isSleepInterval = 2 :=
  have h := C4_loop_isolates_failures "g" "p" "u" "s.png" none 1800 (fun _ => some 3)
    (fun _ => allOkSmtp) 2
  ⟨h.2.1, h.2.2.1⟩

/-- C5 counterexample: with secret-backend mode enabled (the default)
and no project id configured, startup does abort before any cycle runs,
but the process terminates with exit code 0 — the same code as a
graceful interrupt shutdown — refuting the claim of a distinct non-zero
startup-abort exit code. -/
theorem C5_counterexample :
    ((startup defaultEnv (fun _ => some "v") (.lines ["a@x.com"])).2
      = Startup.abortNoProjectId)
    ∧ (mainTrace defaultEnv (fun _ => some "v") (.lines ["a@x.com"]) (fun _ => none)
        (fun _ => allOkSmtp) 5).countP isCycleStart = 0
    ∧ process_exit_code ExitCause.mainReturned = 0
    ∧ process_exit_code ExitCause.mainReturned = process_exit_code ExitCause.keyboardInterrupt := by
  decide

/-- C5 (amended): when secret-backend mode is enabled with no truthy
project id, or environment mode lacks a mandatory Google credential,
the program aborts at startup before any cycle runs — but the process
then terminates with exit code 0, the same code as a graceful interrupt
shutdown, not a distinct non-zero code. -/
theorem C5_amended_startup_abort_exit_zero (cfg : Env) (store : SecretStore)
    (file : RecipientFile) (fails : Nat → Option Nat) (ws : Nat → SmtpWorld) (n : Nat) :
    (cfg.useSecretsManager = true → truthyOpt cfg.gcpProjectId = false →
      (startup cfg store file).2 = Startup.abortNoProjectId
      ∧ (mainTrace cfg store file fails ws n).countP isCycleStart = 0)
    ∧ (cfg.useSecretsManager = false →
        (truthyOpt cfg.googleEmail = false ∨ truthyOpt cfg.googlePassword = false) →
      (startup cfg store file).2 = Startup.abortMissingCreds
      ∧ (mainTrace cfg store file fails ws n).countP isCycleStart = 0)
    ∧ process_exit_code ExitCause.mainReturned = 0
    ∧ process_exit_code ExitCause.mainReturned = process_exit_code ExitCause.keyboardInterrupt := by
  refine ⟨?_, ?_, rfl, rfl⟩
  · intro hu hp
    have hs : startup cfg store file
        = ([.logError "GCP_PROJECT_ID is not set. Cannot access secrets."],
            .abortNoProjectId) := by
      simp [startup, hu, hp]
    refine ⟨by rw [hs], ?_⟩
    simp [mainTrace, hs]
  · intro hu hcred
    have hcond : (!(truthyOpt cfg.googleEmail) || !(truthyOpt cfg.googlePassword)) = true := by
      rcases hcred with h | h <;> simp [h]
    have hs : startup cfg store file
        = ([.logError "Google credentials are missing. Exiting."], .abortMissingCreds) := by
      simp [startup, hu, hcond]
    refine ⟨by rw [hs], ?_⟩
    simp [mainTrace, hs]

/-- Witness for C5 (amended): the all-defaults configuration aborts at
startup and runs no cycle. -/
theorem C5_amended_witness :
    (startup defaultEnv (fun _ => some "v") RecipientFile.absent).2 = Startup.abortNoProjectId
    ∧ (mainTrace defaultEnv (fun _ => some "v") RecipientFile.absent (fun _ => none)
        (fun _ => allOkSmtp) 3).countP isCycleStart = 0 :=
  (C5_amended_startup_abort_exit_zero defaultEnv (fun _ => some "v") RecipientFile.absent
    (fun _ => none) (fun _ => allOkSmtp) 3).1 (by decide) (by decide)

/-- C6: recipient-file resolution: the resolved list is exactly the
lines of the file with surrounding whitespace stripped and blank or
whitespace-only lines dropped, in order; no resolved address is empty;
and the documented four-line file resolves to exactly the two
addresses. -/
theorem C6_recipient_file_resolution (ls : List String) (env : Option String) :
    load_recipient_emails (.lines ls) env
        = (ls.filter (fun l => !(pyStrip l == ""))).map pyStrip
    ∧ (∀ r ∈ load_recipient_emails (.lines ls) env, r ≠ "")
    ∧ load_recipient_emails (.lines ["a@x.com", "", "  ", "b@x.com"]) env
        = ["a@x.com", "b@x.com"] := by
  refine ⟨rfl, ?_, rfl⟩
  intro r hr
  simp only [load_recipient_emails, List.mem_map, List.mem_filter] at hr
  obtain ⟨l, ⟨-, hl⟩, rfl⟩ := hr
  simpa [truthyStr] using hl

/-- Witness for C6: the documented four-line file resolves to the two
addresses. -/
theorem C6_witness :
    load_recipient_emails (.lines ["a@x.com", "", "  ", "b@x.com"]) none
      = ["a@x.com", "b@x.com"] :=
  (C6_recipient_file_resolution ["a@x.com", "", "  ", "b@x.com"] none).2.2

lemma steps_countP_screenshot (ge gp url path : String) :
    (browserPhaseSteps ge gp url path).countP isScreenshot = 1 := by
  simp [browserPhaseSteps, handle_google_login, capture_screenshot, List.countP_cons,
    List.countP_append]

lemma steps_countP_settle (ge gp url path : String) :
    (browserPhaseSteps ge gp url path).countP isSettleSleep = 1 := by
  simp [browserPhaseSteps, handle_google_login, capture_screenshot, List.countP_cons,
    List.countP_append]

/-- C7: every successful capture performs, contiguously and in this
order: navigate to the target URL, wait for the page root element with
a 10000 ms timeout, sleep the fixed 3-second settle delay, then write
the screenshot to the configured output path.  The cycle contains
exactly one screenshot and exactly one settle sleep, and every settle
sleep in the cycle is exactly 3 seconds. -/
theorem C7_capture_order (ge gp url path : String) (ec : Option EmailConfig) (w : SmtpWorld) :
    (∃ pre post, (process_capture_and_email ge gp url path ec none w).1
        = pre ++ capture_screenshot url path ++ post)
    ∧ (process_capture_and_email ge gp url path ec none w).1.countP isScreenshot = 1
    ∧ (process_capture_and_email ge gp url path ec none w).1.countP isSettleSleep = 1
    ∧ (∀ s, Event.sleepSeconds s ∈ (process_capture_and_email ge gp url path ec none w).1
        → s = 3)
    ∧ capture_screenshot url path
        = [Event.goto url, Event.waitForSelector "body" (some 10000),
           Event.sleepSeconds 3, Event.screenshot path] := by
  have hopen : (browserPhaseSteps ge gp url path).any isLaunch = true := by
    simp [browserPhaseSteps, handle_google_login, capture_screenshot]
  have hclosed : (browserPhaseSteps ge gp url path).any isCloseBrowser = true := by
    simp [browserPhaseSteps, handle_google_login, capture_screenshot]
  refine ⟨?_, ?_, ?_, ?_, rfl⟩
  · cases ec with
    | none =>
        refine ⟨[Event.launchBrowser, Event.newContext, Event.newPage, Event.goto loginUrl]
            ++ handle_google_login ge gp,
          [Event.closeBrowser, Event.playwrightStop false,
           Event.logInfo "Email not configured; skipping email notification."], ?_⟩
        simp [process_capture_and_email, stepsPerformed, hopen, hclosed, browserPhaseSteps,
          handle_google_login, capture_screenshot]
    | some c =>
        refine ⟨[Event.launchBrowser, Event.newContext, Event.newPage, Event.goto loginUrl]
            ++ handle_google_login ge gp,
          [Event.closeBrowser, Event.playwrightStop false]
            ++ Event.sendEmailCall c.recipients c.sender
              :: (send_email c.recipients c.sender c path w).1, ?_⟩
        simp [process_capture_and_email, stepsPerformed, hopen, hclosed, browserPhaseSteps,
          handle_google_login, capture_screenshot]
  · cases ec with
    | none =>
        simp [process_capture_and_email, stepsPerformed, hopen, hclosed,
          List.countP_append, List.countP_cons, steps_countP_screenshot]
    | some c =>
        have e1 := send_email_countP_zero c.recipients c.sender c path w
          isScreenshot (fun e he => email_no_screenshot he)
        simp [process_capture_and_email, stepsPerformed, hopen, hclosed,
          List.countP_append, List.countP_cons, steps_countP_screenshot, e1]
  · cases ec with
    | none =>
        simp [process_capture_and_email, stepsPerformed, hopen, hclosed,
          List.countP_append, List.countP_cons, steps_countP_settle]
    | some c =>
        have e1 := send_email_countP_zero c.recipients c.sender c path w
          isSettleSleep (fun e he => email_no_settle he)
        simp [process_capture_and_email, stepsPerformed, hopen, hclosed,
          List.countP_append, List.countP_cons, steps_countP_settle, e1]
  · intro s hs
    cases ec with
    | none =>
        simp [process_capture_and_email, stepsPerformed, hopen, hclosed, browserPhaseSteps,
          handle_google_login, capture_screenshot] at hs
        exact hs
    | some c =>
        have e0 := send_email_countP_zero c.recipients c.sender c path w isSettleSleep
          (fun e he => email_no_settle he)
        simp [process_capture_and_email, stepsPerformed, hopen, hclosed, browserPhaseSteps,
          handle_google_login, capture_screenshot] at hs
        rcases hs with hs | hs
        · exact hs
        · exact absurd (List.countP_eq_zero.mp e0 _ hs) (by simp)

/-- Witness for C7 at a concrete successful cycle: exactly one
screenshot and one settle sleep. -/
theorem C7_witness :
    (process_capture_and_email "g" "p" "u" "s.png" none none
        allOkSmtp).1.countP isScreenshot = 1
    ∧ (process_capture_and_email "g" "p" "u" "s.png" none none
        allOkSmtp).1.countP isSettleSleep = 1 :=
  have h := C7_capture_order "g" "p" "u" "s.png" none allOkSmtp
  ⟨h.2.1, h.2.2.1⟩

/-- C8: send_email never raises to its caller: whatever the SMTP world,
it returns normally.  When the artifact read fails it logs and returns
without any SMTP event; when the read succeeds but a step of the SMTP
exchange fails it performs the exchange up to that step, logs the error
and returns; and the result of the calling cycle is the normal one
whatever the SMTP world. -/
theorem C8_send_email_never_raises (r : List String) (s : Option String) (cfg : EmailConfig)
    (p : String) (w : SmtpWorld) (ge gp url : String) (ec : Option EmailConfig) :
    (send_email r s cfg p w).2 = PyResult.ok ()
    ∧ (w.readArtifact = none →
        (send_email r s cfg p w).1.countP isSmtpEvent = 0
        ∧ (send_email r s cfg p w).1
            = [Event.readFile p,
               Event.logError "Failed to read screenshot for email attachment"])
    ∧ (∀ b m, w.readArtifact = some b → (smtpExchange cfg w).2 = PyResult.exn m →
        (send_email r s cfg p w).1
          = Event.readFile p :: (smtpExchange cfg w).1
              ++ [Event.logError "Error sending email"])
    ∧ (process_capture_and_email ge gp url p ec none w).2 = PyResult.ok () := by
  refine ⟨?_, ?_, ?_, ?_⟩
  · unfold send_email
    cases hra : w.readArtifact with
    | none => rfl
    | some b =>
        rcases hse : smtpExchange cfg w with ⟨evs, rr⟩
        cases rr <;> simp
  · intro hra
    unfold send_email
    rw [hra]
    exact ⟨by simp, rfl⟩
  · intro b m hra hex
    unfold send_email
    rw [hra]
    rcases hse : smtpExchange cfg w with ⟨evs, rr⟩
    rw [hse] at hex
    simp only [] at hex
    subst hex
    simp
  · cases ec <;> simp [process_capture_and_email, stepsPerformed]

/-- Witness for C8 at concrete inputs: a failing artifact read produces
no SMTP event and still a normal return. -/
theorem C8_witness :
    ((send_email ["a@x.com"] (some "s@x.com") demoEmailConfig "shots/s.png"
        { readArtifact := none, connectOk := true, starttlsOk := true,
          loginOk := true, sendOk := true }).1.countP isSmtpEvent = 0)
    ∧ (send_email ["a@x.com"] (some "s@x.com") demoEmailConfig "shots/s.png"
        { readArtifact := none, connectOk := true, starttlsOk := true,
          loginOk := true, sendOk := true }).2 = PyResult.ok () := by
  have h := C8_send_email_never_raises ["a@x.com"] (some "s@x.com") demoEmailConfig
    "shots/s.png"
    { readArtifact := none, connectOk := true, starttlsOk := true,
      loginOk := true, sendOk := true }
    "g" "p" "u" none
  exact ⟨(h.2.1 rfl).1, h.1⟩


lemma writeFs_self (fs : Fs) (p : String) (b : List Nat) :
    writeFs (writeFs fs p b) p b = writeFs fs p b := by
  by_cases h : fs.any (fun e => e.1 == p)
  · have hw : writeFs fs p b = fs.map (fun e => if e.1 == p then (p, b) else e) := by
      unfold writeFs
      rw [if_pos h]
    have hany2 : ((fs.map (fun e => if e.1 == p then (p, b) else e)).any
        (fun e => e.1 == p)) = true := by
      rcases List.any_eq_true.mp h with ⟨e, he, hep⟩
      exact List.any_eq_true.mpr ⟨_, List.mem_map_of_mem _ he, by simp [hep]⟩
    rw [hw]
    unfold writeFs
    rw [if_pos hany2, List.map_map]
    apply List.map_congr_left
    intro e he
    by_cases hep : e.1 == p
    · simp [Function.comp, hep]
    · simp [Function.comp, hep]
  · have hw : writeFs fs p b = fs ++ [(p, b)] := by
      unfold writeFs
      rw [if_neg h]
    have hall : ∀ e ∈ fs, (e.1 == p) = false := by
      intro e he
      by_contra hc
      exact h (List.any_eq_true.mpr ⟨e, he, by simpa using hc⟩)
    have hany2 : (((fs ++ [(p, b)]).any (fun e => e.1 == p))) = true :=
      List.any_eq_true.mpr ⟨(p, b), by simp, by simp⟩
    rw [hw]
    unfold writeFs
    rw [if_pos hany2, List.map_append]
    have h1 : fs.map (fun e => if e.1 == p then (p, b) else e) = fs := by
      conv_rhs => rw [← List.map_id fs]
      apply List.map_congr_left
      intro e he
      simp [hall e he]
    rw [h1]
    simp

lemma lookupFs_writeFs (fs : Fs) (p : String) (b : List Nat) :
    lookupFs (writeFs fs p b) p = some b := by
  induction fs with
  | nil => simp [writeFs, lookupFs]
  | cons a fs ih =>
      by_cases ha : a.1 == p
      · have hany : (((a :: fs).any (fun e => e.1 == p))) = true := by
          simp [List.any_cons, ha]
        have hw : writeFs (a :: fs) p b
            = (p, b) :: fs.map (fun e => if e.1 == p then (p, b) else e) := by
          unfold writeFs
          rw [if_pos hany, List.map_cons, if_pos ha]
        rw [hw, lookupFs, List.find?_cons_of_pos _ (by simp)]
        rfl
      · have hanyc : ((a :: fs).any (fun e => e.1 == p)) = fs.any (fun e => e.1 == p) := by
          simp [List.any_cons, ha]
        by_cases h2 : fs.any (fun e => e.1 == p)
        · have hw : writeFs (a :: fs) p b
              = a :: fs.map (fun e => if e.1 == p then (p, b) else e) := by
            unfold writeFs
            rw [if_pos (by rw [hanyc]; exact h2), List.map_cons,
              if_neg (by simpa using ha)]
          have hw2 : writeFs fs p b = fs.map (fun e => if e.1 == p then (p, b) else e) := by
            unfold writeFs
            rw [if_pos h2]
          rw [hw, lookupFs, List.find?_cons_of_neg _ (by simpa using ha)]
          rw [hw2, lookupFs] at ih
          exact ih
        · have hw : writeFs (a :: fs) p b = a :: (fs ++ [(p, b)]) := by
            unfold writeFs
            rw [if_neg (by rw [hanyc]; exact h2)]
            rfl
          have hw2 : writeFs fs p b = fs ++ [(p, b)] := by
            unfold writeFs
            rw [if_neg h2]
          rw [hw, lookupFs, List.find?_cons_of_neg _ (by simpa using ha)]
          rw [hw2, lookupFs] at ih
          exact ih

lemma applyTrace_eq_written (shot : List Nat) :
    ∀ (tr : List Event) (fs : Fs),
      applyTrace shot fs tr = (writtenPaths tr).foldl (fun f q => writeFs f q shot) fs := by
  intro tr
  induction tr with
  | nil => intro fs; rfl
  | cons e tr ih =>
      intro fs
      cases e <;> simp [applyTrace, applyEvent, writtenPaths, List.foldl_cons] <;>
        exact ih _

lemma send_email_writtenPaths (r : List String) (s : Option String) (cfg : EmailConfig)
    (p : String) (w : SmtpWorld) : writtenPaths (send_email r s cfg p w).1 = [] := by
  rw [writtenPaths, List.filterMap_eq_nil_iff]
  intro e he
  have hsh := send_email_events_shape r s cfg p w e he
  cases e <;> simp_all [isEmailPhaseEvent]

lemma iteration_writtenPaths (ge gp url path : String) (ec : Option EmailConfig)
    (interval : Nat) (w : SmtpWorld) :
    writtenPaths (scheduler_iteration ge gp url path ec interval none w) = [path] := by
  have hopen : (browserPhaseSteps ge gp url path).any isLaunch = true := by
    simp [browserPhaseSteps, handle_google_login, capture_screenshot]
  have hclosed : (browserPhaseSteps ge gp url path).any isCloseBrowser = true := by
    simp [browserPhaseSteps, handle_google_login, capture_screenshot]
  cases ec with
  | none =>
      simp [scheduler_iteration, process_capture_and_email, stepsPerformed, hopen, hclosed,
        browserPhaseSteps, handle_google_login, capture_screenshot, writtenPaths]
  | some c =>
      have he := send_email_writtenPaths c.recipients c.sender c path w
      rw [writtenPaths] at he
      simp [scheduler_iteration, process_capture_and_email, stepsPerformed, hopen, hclosed,
        browserPhaseSteps, handle_google_login, capture_screenshot, writtenPaths, he]

lemma run_writtenPaths (ge gp url path : String) (ec : Option EmailConfig)
    (interval : Nat) (w : SmtpWorld) :
    ∀ n, writtenPaths
        (scheduler_run ge gp url path ec interval (fun _ => none) (fun _ => w) n)
      = List.replicate n path := by
  intro n
  induction n with
  | zero => rfl
  | succ m ih =>
      rw [scheduler_run, writtenPaths, List.filterMap_append, ← writtenPaths, ← writtenPaths,
        ih, iteration_writtenPaths, List.replicate_succ']

lemma foldl_writeFs_replicate (shot : List Nat) (p : String) :
    ∀ (n : Nat) (g : Fs), writeFs g p shot = g →
      (List.replicate n p).foldl (fun f q => writeFs f q shot) g = g := by
  intro n
  induction n with
  | zero => intro g hg; rfl
  | succ m ih =>
      intro g hg
      rw [List.replicate_succ, List.foldl_cons, hg]
      exact ih g hg

/-- C9: with a deterministic automation surface, n consecutive
successful cycles (n at least 1) write only the single configured
artifact path, overwriting it with identical bytes each time: the file
system after n cycles equals the file system after one cycle, the
artifact holds exactly the screenshot bytes, and the written paths are
n repetitions of the single output path. -/
theorem C9_idempotent_artifact (ge gp url path : String) (ec : Option EmailConfig)
    (interval : Nat) (w : SmtpWorld) (shot : List Nat) (fs : Fs) (n : Nat) (hn : 1 ≤ n) :
    applyTrace shot fs
        (scheduler_run ge gp url path ec interval (fun _ => none) (fun _ => w) n)
      = writeFs fs path shot
    ∧ applyTrace shot fs
        (scheduler_run ge gp url path ec interval (fun _ => none) (fun _ => w) n)
      = applyTrace shot fs
          (scheduler_run ge gp url path ec interval (fun _ => none) (fun _ => w) 1)
    ∧ writtenPaths (scheduler_run ge gp url path ec interval (fun _ => none) (fun _ => w) n)
      = List.replicate n path
    ∧ lookupFs (applyTrace shot fs
        (scheduler_run ge gp url path ec interval (fun _ => none) (fun _ => w) n)) path
      = some shot := by
  have hmain : ∀ m, 1 ≤ m →
      applyTrace shot fs
          (scheduler_run ge gp url path ec interval (fun _ => none) (fun _ => w) m)
        = writeFs fs path shot := by
    intro m hm
    rw [applyTrace_eq_written, run_writtenPaths]
    rcases m with _ | m
    · omega
    · rw [List.replicate_succ, List.foldl_cons]
      exact foldl_writeFs_replicate shot path m (writeFs fs path shot)
        (writeFs_self fs path shot)
  refine ⟨hmain n hn, ?_, run_writtenPaths ge gp url path ec interval w n, ?_⟩
  · rw [hmain n hn, hmain 1 (le_refl 1)]
  · rw [hmain n hn]
    exact lookupFs_writeFs fs path shot

/-- Witness for C9: two concrete cycles leave exactly the single
artifact with the screenshot bytes. -/
theorem C9_witness :
    applyTrace [7] [] (scheduler_run "g" "p" "u" "shots/s.png" none 1800 (fun _ => none)
        (fun _ => allOkSmtp) 2)
      = writeFs [] "shots/s.png" [7]
    ∧ writtenPaths (scheduler_run "g" "p" "u" "shots/s.png" none 1800 (fun _ => none)
        (fun _ => allOkSmtp) 2) = List.replicate 2 "shots/s.png" :=
  have h := C9_idempotent_artifact "g" "p" "u" "shots/s.png" none 1800 allOkSmtp [7] [] 2
    (by decide)
  ⟨h.1, h.2.2.1⟩

lemma fetchOne_ok {store : SecretStore} {nm : String} {x : String}
    (h : (fetchOne store nm).2 = .ok x) : (store nm).isSome := by
  unfold fetchOne at h
  cases hs : store nm <;> simp [hs] at h ⊢

lemma secretsPhase_ok_forall {cfg : Env} {store : SecretStore}
    {v : String × String × String × String × String × String × String}
    (hok : (secretsPhase cfg store).2 = .ok v) :
    ∀ nm ∈ fetchNames cfg, (store nm).isSome := by
  unfold secretsPhase at hok
  obtain ⟨x1, h1, hok⟩ := pyBind_ok hok
  obtain ⟨x2, h2, hok⟩ := pyBind_ok hok
  obtain ⟨x3, h3, hok⟩ := pyBind_ok hok
  obtain ⟨x4, h4, hok⟩ := pyBind_ok hok
  obtain ⟨x5, h5, hok⟩ := pyBind_ok hok
  obtain ⟨x6, h6, hok⟩ := pyBind_ok hok
  obtain ⟨x7, h7, hok⟩ := pyBind_ok hok
  intro nm hnm
  unfold fetchNames at hnm
  by_cases hp : truthyStr cfg.emailSmtpServerPortSecretName
  · rw [if_pos hp] at hnm
    simp at hnm
    rcases hnm with h | h | h | h | h | h | h <;> subst h
    · exact fetchOne_ok h1
    · exact fetchOne_ok h2
    · exact fetchOne_ok h3
    · exact fetchOne_ok h4
    · refine fetchOne_ok (x := x5) ?_
      unfold fetchPort at h5
      rw [if_pos hp] at h5
      exact h5
    · exact fetchOne_ok h6
    · exact fetchOne_ok h7
  · rw [if_neg hp] at hnm
    simp at hnm
    rcases hnm with h | h | h | h | h | h <;> subst h
    · exact fetchOne_ok h1
    · exact fetchOne_ok h2
    · exact fetchOne_ok h3
    · exact fetchOne_ok h4
    · exact fetchOne_ok h6
    · exact fetchOne_ok h7

lemma secretsPhase_events_access (cfg : Env) (store : SecretStore) :
    ∀ e ∈ (secretsPhase cfg store).1, isAccessSecret e = true := by
  intro e he
  unfold secretsPhase at he
  rcases mem_pyBind he with h | ⟨x1, h⟩
  · simp [fetchOne] at h; subst h; rfl
  rcases mem_pyBind h with h | ⟨x2, h⟩
  · simp [fetchOne] at h; subst h; rfl
  rcases mem_pyBind h with h | ⟨x3, h⟩
  · simp [fetchOne] at h; subst h; rfl
  rcases mem_pyBind h with h | ⟨x4, h⟩
  · simp [fetchOne] at h; subst h; rfl
  rcases mem_pyBind h with h | ⟨x5, h⟩
  · unfold fetchPort at h
    split at h
    · simp [fetchOne] at h; subst h; rfl
    · simp at h
  rcases mem_pyBind h with h | ⟨x6, h⟩
  · simp [fetchOne] at h; subst h; rfl
  rcases mem_pyBind h with h | ⟨x7, h⟩
  · simp [fetchOne] at h; subst h; rfl
  · simp at h

lemma access_not_cycleStart {e : Event} (h : isAccessSecret e = true) :
    isCycleStart e = false := by
  cases e <;> simp_all

/-- In secret-backend mode with a truthy project id, the secret-access
events of startup are exactly those of the secret-resolution phase,
whatever the recipient configuration. -/
lemma startup_access_events (cfg : Env) (store : SecretStore) (file : RecipientFile)
    (hu : cfg.useSecretsManager = true) (hp : truthyOpt cfg.gcpProjectId = true) :
    (startup cfg store file).1.filter isAccessSecret
      = (secretsPhase cfg store).1.filter isAccessSecret := by
  unfold startup
  rcases hsp : secretsPhase cfg store with ⟨evs, r⟩
  cases r with
  | exn m => simp [hu, hp, hsp, List.filter_append]
  | ok v =>
      obtain ⟨v1, v2, v3, v4, v5, v6, v7⟩ := v
      by_cases hc : (!(truthyStr v1) || !(truthyStr v2)) = true
      · simp [hu, hp, hsp, hc, List.filter_append]
      · simp [hu, hp, hsp, hc, List.filter_append]

/-- C10: in secret-backend mode with a project id, the secret fetches
performed at startup are the same whatever the recipient configuration
— the sender and every SMTP secret name is on the fetch list even when
the recipient list is empty — and a failure to resolve any secret on
that list aborts startup before any cycle runs. -/
theorem C10_secrets_fetched_unconditionally (cfg : Env) (store : SecretStore)
    (fileA fileB : RecipientFile) (fails : Nat → Option Nat) (ws : Nat → SmtpWorld) (n : Nat)
    (hu : cfg.useSecretsManager = true) (hp : truthyOpt cfg.gcpProjectId = true) :
    ((startup cfg store fileA).1.filter isAccessSecret
      = (startup cfg store fileB).1.filter isAccessSecret)
    ∧ cfg.emailSenderSecretName ∈ fetchNames cfg
    ∧ cfg.emailSmtpServerSecretName ∈ fetchNames cfg
    ∧ cfg.emailSmtpUserSecretName ∈ fetchNames cfg
    ∧ cfg.emailSmtpPasswordSecretName ∈ fetchNames cfg
    ∧ ((∃ nm ∈ fetchNames cfg, store nm = none) →
        (startup cfg store fileA).2 = Startup.abortSecretError
        ∧ (mainTrace cfg store fileA fails ws n).countP isCycleStart = 0) := by
  refine ⟨?_, ?_, ?_, ?_, ?_, ?_⟩
  · rw [startup_access_events cfg store fileA hu hp, startup_access_events cfg store fileB hu hp]
  · by_cases hq : truthyStr cfg.emailSmtpServerPortSecretName <;> simp [fetchNames, hq]
  · by_cases hq : truthyStr cfg.emailSmtpServerPortSecretName <;> simp [fetchNames, hq]
  · by_cases hq : truthyStr cfg.emailSmtpServerPortSecretName <;> simp [fetchNames, hq]
  · by_cases hq : truthyStr cfg.emailSmtpServerPortSecretName <;> simp [fetchNames, hq]
  · rintro ⟨nm, hnm, hns⟩
    rcases hsp : secretsPhase cfg store with ⟨evs, r⟩
    cases r with
    | ok v =>
        have hok : (secretsPhase cfg store).2 = .ok v := by rw [hsp]
        have := secretsPhase_ok_forall hok nm hnm
        rw [hns] at this
        simp at this
    | exn m =>
        have hstart : startup cfg store fileA
            = (evs ++ [.logError "Error retrieving secrets"], .abortSecretError) := by
          simp [startup, hu, hp, hsp]
        refine ⟨by rw [hstart], ?_⟩
        have hz : evs.countP isCycleStart = 0 := by
          refine List.countP_eq_zero.mpr fun e he => ?_
          have ha := secretsPhase_events_access cfg store e (by rw [hsp]; exact he)
          simp [access_not_cycleStart ha, -isCycleStart]
        simp [mainTrace, hstart, List.countP_append, List.countP_cons, hz]

/-- Witness for C10: with a project id configured, an empty recipient
file and a secret backend that fails every lookup, startup aborts with
the secret error and no cycle starts. -/
theorem C10_witness :
    (startup { defaultEnv with gcpProjectId := some "proj" } (fun _ => none)
        RecipientFile.absent).2 = Startup.abortSecretError
    ∧ (mainTrace { defaultEnv with gcpProjectId := some "proj" } (fun _ => none)
        RecipientFile.absent (fun _ => none) (fun _ => allOkSmtp) 4).countP isCycleStart = 0 :=
  (C10_secrets_fetched_unconditionally { defaultEnv with gcpProjectId := some "proj" }
    (fun _ => none) RecipientFile.absent RecipientFile.absent (fun _ => none)
    (fun _ => allOkSmtp) 4 (by decide) (by decide)).2.2.2.2.2
    ⟨"soleng-sender-email", by decide, rfl⟩

end Teleop
